import Mathlib

/-!
Verification of the rune-scroller trigger engine.

This file gives a shallow embedding of the library's core:

* `createSentinel` — the sentinel factory (src/lib/dom-utils, the six-argument
  version with the module-level `sentinelCounter`); counter state is passed
  explicitly.
* `ANIMATION_TYPES` — the recognized animation identifiers (src/lib/animations).
* a small DOM model (`Node`, `Doc`) with the primitive operations the engine
  uses: `insertAdjacentElement('beforebegin', ...)`, `appendChild`, `remove`,
  `replaceWith` — each modelled with the DOM's move semantics (a node is first
  detached from its current parent).
* `attachEngine`, `stepEv`, `updateOp`, `destroyOp` — the `runeScroller`
  action (src/lib/runeScroller.js): attachment, the intersection /
  resize event loop, `update` and `destroy`.
-/

namespace RuneScroller

/-- The recognized animation identifiers (`ANIMATION_TYPES` in animations.js). -/
def ANIMATION_TYPES : List String :=
  ["fade-in", "fade-in-up", "fade-in-down", "fade-in-left", "fade-in-right",
   "zoom-in", "zoom-out", "zoom-in-up", "zoom-in-left", "zoom-in-right",
   "flip", "flip-x", "slide-rotate", "bounce-in"]

/-- The sentinel div produced by `createSentinel`: its `top` style (px), the
`data-sentinel-id` attribute, the `data-sentinel-debug` attribute, its text
content, its height (3px debug band / 1px hairline), its background color (only
in debug mode) and whether `visibility:hidden` is set. -/
structure SentinelNode where
  top : Int
  dataSentinelId : String
  dataSentinelDebug : Bool
  text : String
  heightPx : Nat
  background : Option String
  hidden : Bool
deriving DecidableEq, Repr

/-- Result of `createSentinel`: the node, its id, and the new value of the
module-level `sentinelCounter` (threaded explicitly). -/
structure CreateSentinelResult where
  node : SentinelNode
  id : String
  counter : Nat
deriving DecidableEq, Repr

/-- `createSentinel(element, debug = false, offset = 0, sentinelColor = '#00e0ff',
debugLabel = '', sentinelId)` from dom-utils.  `elementHeight` is the target's
`offsetHeight` (a non-negative integer).  A `sentinelId` of `none` models the
JS `undefined`; `some ""` is also falsy in JS, so both trigger auto-generation
from the counter. -/
def createSentinel (elementHeight : Nat) (debug : Bool) (offset : Int)
    (sentinelColor : String) (debugLabel : String) (sentinelId : Option String)
    (counter : Nat) : CreateSentinelResult :=
  let sentinelTop : Int := (elementHeight : Int) + offset
  let idIsFalsy : Bool := sentinelId.getD "" == ""
  let counter' : Nat := if idIsFalsy then counter + 1 else counter
  let sid : String :=
    if idIsFalsy then "sentinel-" ++ Nat.repr (counter + 1) else sentinelId.getD ""
  if debug then
    { node :=
        { top := sentinelTop
          dataSentinelId := sid
          dataSentinelDebug := true
          text := if debugLabel == "" then sid else debugLabel
          heightPx := 3
          background := some sentinelColor
          hidden := false }
      id := sid
      counter := counter' }
  else
    { node :=
        { top := sentinelTop
          dataSentinelId := sid
          dataSentinelDebug := false
          text := ""
          heightPx := 1
          background := none
          hidden := true }
      id := sid
      counter := counter' }

/-- Parameters of one `createSentinel` call (everything except the id request
and the counter). -/
structure CSParams where
  height : Nat
  debug : Bool
  offset : Int
  color : String
  label : String
deriving DecidableEq, Repr

/-- A run of `createSentinel` calls, none of them supplying a caller id,
threading the module-level counter from call to call. -/
def runCreates (counter : Nat) : List CSParams → List CreateSentinelResult
  | [] => []
  | p :: ps =>
    let r := createSentinel p.height p.debug p.offset p.color p.label none counter
    r :: runCreates r.counter ps

/-- DOM nodes relevant to one attachment: the target element, the wrapper div,
the sentinel divs (numbered by creation), and external sibling nodes. -/
inductive Node where
  | target : Node
  | wrapper : Node
  | sentinel (k : Nat) : Node
  | ext (k : Nat) : Node
deriving DecidableEq, Repr

/-- Remove the first occurrence of a node from a child list
(no-op when absent). -/
def eraseN : List Node → Node → List Node
  | [], _ => []
  | x :: xs, a => if x = a then xs else x :: eraseN xs a

/-- Insert `x` immediately before the first occurrence of `ref`
(no-op when `ref` is absent). -/
def insertBeforeN : List Node → Node → Node → List Node
  | [], _, _ => []
  | c :: cs, x, ref => if c = ref then x :: c :: cs else c :: insertBeforeN cs x ref

/-- Replace the first occurrence of `o` by `n` in place. -/
def replaceFirstN : List Node → Node → Node → List Node
  | [], _, _ => []
  | x :: xs, o, n => if x = o then n :: xs else x :: replaceFirstN xs o n

/-- The two containers an attachment ever touches: the target's original
parent, and the wrapper div. -/
structure Doc where
  parentChildren : List Node
  wrapperChildren : List Node
deriving DecidableEq, Repr

/-- Detach a node from wherever it lives (`node.remove()`, or the implicit
detach performed by a DOM move). -/
def eraseNode (d : Doc) (n : Node) : Doc :=
  { parentChildren := eraseN d.parentChildren n
    wrapperChildren := eraseN d.wrapperChildren n }

/-- `ref.insertAdjacentElement('beforebegin', x)` where `ref` sits in the
original parent: when `ref` has a parent, `x` is detached from its current
position and inserted immediately before `ref`; when `ref` has no parent the
call returns null and does nothing. -/
def insertBeforeInParent (d : Doc) (x ref : Node) : Doc :=
  if ref ∈ d.parentChildren then
    let d' := eraseNode d x
    { d' with parentChildren := insertBeforeN d'.parentChildren x ref }
  else d

/-- `wrapper.appendChild(x)`: detach `x`, then append it to the wrapper. -/
def appendChildWrapper (d : Doc) (x : Node) : Doc :=
  let d' := eraseNode d x
  { d' with wrapperChildren := d'.wrapperChildren ++ [x] }

/-- `o.replaceWith(n)`: replace `o` in place inside its parent; a no-op when
`o` has no parent. -/
def replaceWithinDoc (d : Doc) (o n : Node) : Doc :=
  if o ∈ d.parentChildren then
    { d with parentChildren := replaceFirstN d.parentChildren o n }
  else if o ∈ d.wrapperChildren then
    { d with wrapperChildren := replaceFirstN d.wrapperChildren o n }
  else d

/-- `RuneScrollerOptions`: every field the action reads.  `none` models a JS
`undefined` field.  The visibility callback is tracked only through its
presence (`hasOnVisible`) and an invocation counter on the engine state. -/
structure Options where
  animation : Option String := none
  duration : Option Nat := none
  repeatFlag : Option Bool := none
  debug : Option Bool := none
  offset : Option Int := none
  sentinelColor : Option String := none
  debugLabel : Option String := none
  sentinelId : Option String := none
  hasOnVisible : Bool := false
deriving DecidableEq, Repr

/-- The animation-validation block of `runeScroller`:
`animation = options?.animation ?? 'fade-in'`, then the fallback to
`'fade-in'` with a console warning when the (truthy) identifier is not in
`ANIMATION_TYPES`.  Returns the resolved identifier and whether the warning
was emitted. -/
def validateAnimation (requested : Option String) : String × Bool :=
  let a0 := requested.getD "fade-in"
  if a0 ≠ "" ∧ a0 ∉ ANIMATION_TYPES then ("fade-in", true) else (a0, false)

/-- The closure state of one `runeScroller(element, options)` call.
`observing` is whether the IntersectionObserver currently observes the current
sentinel; `isConnected` is the separate `state.isConnected` flag used by
`disconnectObserver`; `counter` is the module-level `sentinelCounter`;
`nodeCtr`/`sentNode` number the sentinel DOM nodes so replacement can be
tracked; `visible` is the presence of the `is-visible` class. -/
structure Engine where
  options : Options
  elemHeight : Nat
  scrollAnimate : Bool
  dataAnimation : Option String
  styleDuration : Option Nat
  dataSentinelIdElem : Option String
  warnedInvalid : Bool
  visible : Bool
  onVisibleCount : Nat
  isConnected : Bool
  observing : Bool
  roActive : Bool
  counter : Nat
  nodeCtr : Nat
  sentNode : Nat
  sentinel : SentinelNode
  sentinelIdStr : String
  doc : Doc
deriving DecidableEq, Repr

/-- `runeScroller(element, options)` in a browser context: validation,
attribute setup, wrapping, first sentinel creation and observation.  The
target initially sits between siblings `L1` and `L2` in its parent; `c0` is
the current module counter and `n0` numbers the first sentinel node. -/
def attachEngine (L1 L2 : List Nat) (H : Nat) (opts : Options)
    (c0 n0 : Nat) : Engine :=
  let va := validateAnimation opts.animation
  let r := createSentinel H (opts.debug.getD false) (opts.offset.getD 0)
      (opts.sentinelColor.getD "#00e0ff") (opts.debugLabel.getD "")
      opts.sentinelId c0
  let d0 : Doc :=
    { parentChildren := L1.map Node.ext ++ Node.target :: L2.map Node.ext
      wrapperChildren := [] }
  let d1 := insertBeforeInParent d0 Node.wrapper Node.target
  let d2 := appendChildWrapper d1 Node.target
  let d3 := appendChildWrapper d2 (Node.sentinel n0)
  { options := opts
    elemHeight := H
    scrollAnimate := va.1 ≠ ""
    dataAnimation := if va.1 ≠ "" then some va.1 else none
    styleDuration := opts.duration
    dataSentinelIdElem :=
      if opts.sentinelId.getD "" ≠ "" then opts.sentinelId else none
    warnedInvalid := va.2
    visible := false
    onVisibleCount := 0
    isConnected := true
    observing := true
    roActive := true
    counter := r.counter
    nodeCtr := n0 + 1
    sentNode := n0
    sentinel := r.node
    sentinelIdStr := r.id
    doc := d3 }

/-- `recreateSentinel` from the action closure: create a fresh sentinel from
the current options, `currentSentinel.replaceWith(newSentinel)`, then
`intersectionObserver.disconnect()` and `observe(newSentinel)` — the net
effect on the single tracked observation is that the new sentinel is observed.
The `state.isConnected` flag is NOT touched by this function, exactly as in
the source. -/
def recreateOp (e : Engine) : Engine :=
  let r := createSentinel e.elemHeight (e.options.debug.getD false)
      (e.options.offset.getD 0) (e.options.sentinelColor.getD "#00e0ff")
      (e.options.debugLabel.getD "") e.options.sentinelId e.counter
  let newIdx := e.nodeCtr
  { e with
    doc := replaceWithinDoc e.doc (Node.sentinel e.sentNode) (Node.sentinel newIdx)
    sentNode := newIdx
    nodeCtr := newIdx + 1
    counter := r.counter
    sentinel := r.node
    sentinelIdStr := r.id
    observing := true }

/-- Events delivered to the attachment: an intersection callback invocation
(with its `isIntersecting` flag) and a resize notification for the target. -/
inductive Ev where
  | inter (b : Bool) : Ev
  | resize : Ev
deriving DecidableEq, Repr

/-- The IntersectionObserver callback of `runeScroller`.  An intersection
event is delivered only while the observation is live (`observing`); on
`isIntersecting` the `is-visible` class is added and the callback invoked,
then `disconnectObserver(intersectionObserver, state)` runs unless
`options?.repeat` is truthy; on a non-intersecting event the class is removed
only in repeat mode. -/
def interCallback (e : Engine) (isIntersecting : Bool) : Engine :=
  if e.observing then
    if isIntersecting then
      let e1 := { e with
        visible := true
        onVisibleCount := e.onVisibleCount + (if e.options.hasOnVisible then 1 else 0) }
      if e1.options.repeatFlag.getD false then e1
      else if e1.isConnected then { e1 with observing := false, isConnected := false }
      else e1
    else if e.options.repeatFlag.getD false then { e with visible := false }
    else e
  else e

/-- One event step: intersection events go through the callback; resize
events run `recreateSentinel` while the ResizeObserver is active. -/
def stepEv (e : Engine) : Ev → Engine
  | Ev.inter b => interCallback e b
  | Ev.resize => if e.roActive then recreateOp e else e

/-- Process a sequence of delivered events. -/
def foldSteps (e : Engine) (evs : List Ev) : Engine :=
  evs.foldl stepEv e

/-- `n` repeat-mode oscillation pairs: intersecting, then non-intersecting. -/
def altEvs : Nat → List Ev
  | 0 => []
  | n + 1 => Ev.inter true :: Ev.inter false :: altEvs n

/-- Merge `{...options, ...newOptions}`: a defined field of the update wins.
The callback field is not updatable in this model (no claim depends on it). -/
def mergeOptions (old new : Options) : Options :=
  { animation := if new.animation.isSome then new.animation else old.animation
    duration := if new.duration.isSome then new.duration else old.duration
    repeatFlag := if new.repeatFlag.isSome then new.repeatFlag else old.repeatFlag
    debug := if new.debug.isSome then new.debug else old.debug
    offset := if new.offset.isSome then new.offset else old.offset
    sentinelColor := if new.sentinelColor.isSome then new.sentinelColor else old.sentinelColor
    debugLabel := if new.debugLabel.isSome then new.debugLabel else old.debugLabel
    sentinelId := if new.sentinelId.isSome then new.sentinelId else old.sentinelId
    hasOnVisible := old.hasOnVisible }

/-- The `update(newOptions)` operation: a truthy (non-empty) animation string
is written verbatim to `data-animation`; a truthy (non-zero) duration updates
the CSS variable; a changed `repeat` replaces the flag; a changed `offset` or
`debug` merges the options and regenerates the sentinel. -/
def updateOp (e : Engine) (newOpts : Options) : Engine :=
  let e1 := match newOpts.animation with
    | some a => if a ≠ "" then { e with dataAnimation := some a } else e
    | none => e
  let e2 := match newOpts.duration with
    | some d => if d ≠ 0 then { e1 with styleDuration := some d } else e1
    | none => e1
  let e3 := if newOpts.repeatFlag.isSome ∧ newOpts.repeatFlag ≠ e2.options.repeatFlag
    then { e2 with options := { e2.options with repeatFlag := newOpts.repeatFlag } }
    else e2
  if (newOpts.offset.isSome ∧ newOpts.offset ≠ e3.options.offset) ∨
     (newOpts.debug.isSome ∧ newOpts.debug ≠ e3.options.debug)
  then recreateOp { e3 with options := mergeOptions e3.options newOpts }
  else e3

/-- The document effect of `destroy()`: `currentSentinel.remove()`, then —
only when the wrapper still has a parent —
`wrapper.insertAdjacentElement('beforebegin', element)`, and finally
`wrapper.remove()`. -/
def destroyDoc (s : Nat) (d : Doc) : Doc :=
  let d1 := eraseNode d (Node.sentinel s)
  let d2 := if Node.wrapper ∈ d1.parentChildren
    then insertBeforeInParent d1 Node.target Node.wrapper
    else d1
  eraseNode d2 Node.wrapper

/-- The `destroy()` operation.  Statement by statement:
`disconnectObserver(intersectionObserver, state)` clears the observation and
the flag only when `state.isConnected` was still true (so `observing` becomes
false exactly when `isConnected` was true, and `isConnected` is false
afterwards in either case); `resizeObserver.disconnect()` stops resize
notifications; the DOM statements are `destroyDoc`. -/
def destroyOp (e : Engine) : Engine :=
  { e with
    observing := if e.isConnected then false else e.observing
    isConnected := false
    roActive := false
    doc := destroyDoc e.sentNode e.doc }

/-- Well-formedness of a document snapshot: each container's child list has no
duplicates, and no node sits in two containers at once — exactly what the DOM
guarantees (a node has at most one parent). -/
def WFDoc (d : Doc) : Prop :=
  d.parentChildren.Nodup ∧ d.wrapperChildren.Nodup ∧
    ∀ n, n ∈ d.parentChildren → n ∉ d.wrapperChildren

instance : DecidablePred WFDoc := fun d => by
  unfold WFDoc; infer_instance

/-- The statements executed by `recreateSentinel`, in source order:
`createSentinel(...)`, `currentSentinel.replaceWith(newSentinel)` (one DOM
operation removing the old node and inserting the new one in its place),
`intersectionObserver.disconnect()`, `intersectionObserver.observe(newSentinel)`. -/
inductive RAct where
  | createNew : RAct
  | replaceOldWithNew : RAct
  | disconnectObs : RAct
  | observeNew : RAct
deriving DecidableEq, Repr

/-- The statement sequence of `recreateSentinel`. -/
def recreateSentinelTrace : List RAct :=
  [RAct.createNew, RAct.replaceOldWithNew, RAct.disconnectObs, RAct.observeNew]

/-- Micro-state tracked across the replacement: which of the two sentinels is
in the document, and which is observed by the (single) IntersectionObserver. -/
structure ObsState where
  oldInDoc : Bool
  newInDoc : Bool
  oldObserved : Bool
  newObserved : Bool
deriving DecidableEq, Repr

/-- Effect of each `recreateSentinel` statement on the micro-state. -/
def applyRAct (s : ObsState) : RAct → ObsState
  | RAct.createNew => s
  | RAct.replaceOldWithNew => { s with oldInDoc := false, newInDoc := true }
  | RAct.disconnectObs => { s with oldObserved := false, newObserved := false }
  | RAct.observeNew => { s with newObserved := true }

/-- State on entry to `recreateSentinel`: the old sentinel is in the document
and observed. -/
def initObsState : ObsState :=
  { oldInDoc := true, newInDoc := false, oldObserved := true, newObserved := false }

/-- Run a prefix of the replacement statements. -/
def runRActs (l : List RAct) : ObsState :=
  l.foldl applyRAct initObsState

/-- Decimal value of a digit character. -/
def charVal (c : Char) : Nat := c.toNat - 48

/-- Decimal value of a most-significant-first digit string. -/
def decValue (ds : List Char) : Nat :=
  ds.foldl (fun a c => 10 * a + charVal c) 0

/-- Append the decimal digits of `n` to an accumulator `a` (the numeric effect
of printing `n` after the digits already printed). -/
def pushNum (a : Nat) (n : Nat) : Nat :=
  if n < 10 then 10 * a + n
  else 10 * pushNum a (n / 10) + n % 10
termination_by n
decreasing_by
  exact Nat.div_lt_self (by omega) (by omega)

/-- A once-mode configuration with a visibility callback. -/
def optsOnceCb : Options := { animation := some "fade-in", hasOnVisible := true }

/-- A repeat-mode configuration with a visibility callback. -/
def optsRepeatCb : Options := { repeatFlag := some true, hasOnVisible := true }

/-- An attach configuration requesting the empty-string animation. -/
def optsEmptyAnim : Options := { animation := some "" }

/-- An update payload carrying only an animation string. -/
def animOnly (s : String) : Options := { animation := some s }

/-! ## Theorems -/

/-- C3: for every measured extent `H ≥ 0` (including `H = 0`) and every signed
offset `O`, `createSentinel` succeeds (it is total) and positions the
sentinel's top at exactly `H + O` pixels. -/
theorem sentinel_position (H : Nat) (dbg : Bool) (O : Int) (col lab : String)
    (sid : Option String) (c : Nat) :
    (createSentinel H dbg O col lab sid c).node.top = (H : Int) + O := by
  cases dbg <;> simp [createSentinel]

/-- C4 counterexample: run the first two statements of `recreateSentinel`
(create the new sentinel, `replaceWith`).  At that instant the new sentinel is
already inserted in the document while the old observation has not yet been
disconnected — refuting the claim that the old handle is disconnected and the
old sentinel removed strictly before the new sentinel is inserted. -/
theorem swap_ordering_counterexample :
    (runRActs (recreateSentinelTrace.take 2)).newInDoc = true ∧
    (runRActs (recreateSentinelTrace.take 2)).oldObserved = true := by
  decide

/-- C4 amended: along every prefix of `recreateSentinel`'s statements, exactly
one of the two sentinels is in the document (removal and insertion form one
atomic replacement) and the two are never simultaneously observed; the old
observation is disconnected strictly before the new sentinel is observed, and
the atomic replacement happens strictly before the disconnect. -/
theorem swap_ordering_amended :
    ((List.range (recreateSentinelTrace.length + 1)).all
      (fun k =>
        let s := runRActs (recreateSentinelTrace.take k)
        (!(s.oldObserved && s.newObserved)) && (s.oldInDoc != s.newInDoc)) = true) ∧
    recreateSentinelTrace.indexOf RAct.disconnectObs
      < recreateSentinelTrace.indexOf RAct.observeNew ∧
    recreateSentinelTrace.indexOf RAct.replaceOldWithNew
      < recreateSentinelTrace.indexOf RAct.disconnectObs := by
  decide

theorem charVal_digitChar (d : Nat) (h : d < 10) : charVal (Nat.digitChar d) = d := by
  interval_cases d <;> rfl

theorem pushNum_eq_of_lt (a n : Nat) (h : n < 10) : pushNum a n = 10 * a + n := by
  conv_lhs => rw [pushNum]
  simp [h]

theorem pushNum_eq_of_ge (a n : Nat) (h : ¬ n < 10) :
    pushNum a n = 10 * pushNum a (n / 10) + n % 10 := by
  conv_lhs => rw [pushNum]
  simp [h]

theorem pushNum_zero (n : Nat) : pushNum 0 n = n := by
  induction n using Nat.strong_induction_on with
  | _ n ih =>
    by_cases h : n < 10
    · simp [pushNum_eq_of_lt _ _ h]
    · rw [pushNum_eq_of_ge _ _ h, ih (n / 10) (Nat.div_lt_self (by omega) (by omega))]
      omega

theorem foldl_toDigitsCore (fuel : Nat) :
    ∀ (n a : Nat) (ds : List Char), n < 10 ^ (fuel + 1) →
    (Nat.toDigitsCore 10 (fuel + 1) n ds).foldl (fun a c => 10 * a + charVal c) a
      = ds.foldl (fun a c => 10 * a + charVal c) (pushNum a n) := by
  induction fuel with
  | zero =>
    intro n a ds h
    have hn : n < 10 := by simpa using h
    have h0 : n / 10 = 0 := Nat.div_eq_of_lt hn
    simp [Nat.toDigitsCore, h0, Nat.mod_eq_of_lt hn, charVal_digitChar n hn,
      pushNum_eq_of_lt a n hn]
  | succ f ih =>
    intro n a ds h
    by_cases hn : n < 10
    · have h0 : n / 10 = 0 := Nat.div_eq_of_lt hn
      simp [Nat.toDigitsCore, h0, Nat.mod_eq_of_lt hn, charVal_digitChar n hn,
        pushNum_eq_of_lt a n hn]
    · have h0 : n / 10 ≠ 0 := by
        have : 0 < n / 10 := Nat.div_pos (by omega) (by omega)
        omega
      have hdiv : n / 10 < 10 ^ (f + 1) := by
        rw [Nat.div_lt_iff_lt_mul (by omega : (0:Nat) < 10)]
        calc n < 10 ^ (f + 1 + 1) := h
          _ = 10 ^ (f + 1) * 10 := by ring
      rw [show Nat.toDigitsCore 10 (f + 1 + 1) n ds
            = Nat.toDigitsCore 10 (f + 1) (n / 10) (Nat.digitChar (n % 10) :: ds) by
          simp [Nat.toDigitsCore, h0]]
      rw [ih (n / 10) a (Nat.digitChar (n % 10) :: ds) hdiv]
      simp [List.foldl, charVal_digitChar (n % 10) (Nat.mod_lt _ (by omega)),
        pushNum_eq_of_ge a n hn]

theorem decValue_toDigits (n : Nat) : decValue (Nat.toDigits 10 n) = n := by
  have hb : n < 10 ^ (n + 1) :=
    lt_of_lt_of_le (Nat.lt_pow_self (by omega) n)
      (Nat.pow_le_pow_right (by omega) (by omega))
  have h := foldl_toDigitsCore n n 0 [] hb
  simpa [decValue, Nat.toDigits, pushNum_zero] using h

theorem repr_injective : Function.Injective Nat.repr := by
  intro m n h
  have h2 : Nat.toDigits 10 m = Nat.toDigits 10 n := by
    have := congrArg String.data h
    simpa [Nat.repr, List.asString] using this
  have h3 := congrArg decValue h2
  simpa [decValue_toDigits] using h3

theorem string_append_left_cancel {p s t : String} (h : p ++ s = p ++ t) : s = t := by
  have hd : p.data ++ s.data = p.data ++ t.data := by
    simpa [String.data_append] using congrArg String.data h
  have he : s.data = t.data := List.append_cancel_left hd
  cases s; cases t; exact congrArg String.mk (by simpa using he)

theorem sentinelName_injective {m n : Nat}
    (h : "sentinel-" ++ Nat.repr m = "sentinel-" ++ Nat.repr n) : m = n :=
  repr_injective (string_append_left_cancel h)

theorem createSentinel_auto (H : Nat) (dbg : Bool) (O : Int) (col lab : String) (c : Nat) :
    (createSentinel H dbg O col lab none c).id = "sentinel-" ++ Nat.repr (c + 1) ∧
    (createSentinel H dbg O col lab none c).counter = c + 1 := by
  cases dbg <;> simp [createSentinel]

theorem createSentinel_attr (H : Nat) (dbg : Bool) (O : Int) (col lab : String)
    (sid : Option String) (c : Nat) :
    (createSentinel H dbg O col lab sid c).node.dataSentinelId
      = (createSentinel H dbg O col lab sid c).id := by
  cases dbg <;> simp [createSentinel]

theorem runCreates_ids (c : Nat) (ps : List CSParams) :
    (runCreates c ps).map (fun r => r.id)
      = (List.range ps.length).map (fun i => "sentinel-" ++ Nat.repr (c + i + 1)) := by
  induction ps generalizing c with
  | nil => simp [runCreates]
  | cons p ps ih =>
    obtain ⟨hid, hctr⟩ := createSentinel_auto p.height p.debug p.offset p.color p.label c
    rw [List.length_cons, List.range_succ_eq_map, List.map_cons, List.map_map]
    simp only [runCreates, List.map_cons, hid, hctr, ih (c + 1)]
    refine congrArg₂ List.cons (by simp) ?_
    apply List.map_congr_left
    intro i _
    simp only [Function.comp]
    congr 2
    omega

theorem sentinel_ids_nodup (c : Nat) (ps : List CSParams) :
    ((runCreates c ps).map (fun r => r.id)).Nodup := by
  rw [runCreates_ids]
  refine (List.nodup_range _).map ?_
  intro i j hij
  have h := sentinelName_injective hij
  omega

theorem runCreates_attrs (c : Nat) (ps : List CSParams) :
    (runCreates c ps).map (fun r => r.node.dataSentinelId)
      = (runCreates c ps).map (fun r => r.id) := by
  induction ps generalizing c with
  | nil => simp [runCreates]
  | cons p ps ih => simp [runCreates, createSentinel_attr, ih]

theorem eraseN_of_not_mem {l : List Node} {a : Node} (h : a ∉ l) : eraseN l a = l := by
  induction l with
  | nil => rfl
  | cons x xs ih =>
    simp only [List.mem_cons, not_or] at h
    simp [eraseN, Ne.symm h.1, ih h.2]

theorem mem_of_mem_eraseN {l : List Node} {a b : Node} (h : b ∈ eraseN l a) : b ∈ l := by
  induction l with
  | nil => simp [eraseN] at h
  | cons x xs ih =>
    by_cases hx : x = a
    · simp only [eraseN, if_pos hx] at h
      exact List.mem_cons_of_mem x h
    · simp only [eraseN, if_neg hx, List.mem_cons] at h
      rcases h with h | h
      · exact h ▸ List.mem_cons_self x xs
      · exact List.mem_cons_of_mem x (ih h)

theorem nodup_eraseN {l : List Node} (a : Node) (h : l.Nodup) : (eraseN l a).Nodup := by
  induction l with
  | nil => simp [eraseN]
  | cons x xs ih =>
    rcases List.nodup_cons.mp h with ⟨hx, hxs⟩
    by_cases hxa : x = a
    · simpa [eraseN, if_pos hxa] using hxs
    · simp only [eraseN, if_neg hxa]
      exact List.nodup_cons.mpr ⟨fun hc => hx (mem_of_mem_eraseN hc), ih hxs⟩

theorem not_mem_eraseN_self {l : List Node} (h : l.Nodup) (a : Node) : a ∉ eraseN l a := by
  induction l with
  | nil => simp [eraseN]
  | cons x xs ih =>
    rcases List.nodup_cons.mp h with ⟨hx, hxs⟩
    by_cases hxa : x = a
    · simpa [eraseN, if_pos hxa, hxa] using fun hc => hx (hxa ▸ hc)
    · simp only [eraseN, if_neg hxa, List.mem_cons, not_or]
      exact ⟨fun hc => hxa hc.symm, ih hxs⟩

theorem eraseN_append_left {l1 l2 : List Node} {a : Node} (h : a ∉ l1) :
    eraseN (l1 ++ l2) a = l1 ++ eraseN l2 a := by
  induction l1 with
  | nil => rfl
  | cons x xs ih =>
    simp only [List.mem_cons, not_or] at h
    simp [eraseN, Ne.symm h.1, ih h.2]

theorem insertBeforeN_append_left {l1 l2 : List Node} {x ref : Node} (h : ref ∉ l1) :
    insertBeforeN (l1 ++ l2) x ref = l1 ++ insertBeforeN l2 x ref := by
  induction l1 with
  | nil => rfl
  | cons c cs ih =>
    simp only [List.mem_cons, not_or] at h
    simp [insertBeforeN, Ne.symm h.1, ih h.2]

theorem mem_insertBeforeN {l : List Node} {x ref b : Node}
    (h : b ∈ insertBeforeN l x ref) : b ∈ l ∨ b = x := by
  induction l with
  | nil => simp [insertBeforeN] at h
  | cons c cs ih =>
    by_cases hc : c = ref
    · simp only [insertBeforeN, if_pos hc, List.mem_cons] at h
      rcases h with h | h | h
      · exact Or.inr h
      · exact Or.inl (h ▸ List.mem_cons_self c cs)
      · exact Or.inl (List.mem_cons_of_mem c h)
    · simp only [insertBeforeN, if_neg hc, List.mem_cons] at h
      rcases h with h | h
      · exact Or.inl (h ▸ List.mem_cons_self c cs)
      · rcases ih h with h' | h'
        · exact Or.inl (List.mem_cons_of_mem c h')
        · exact Or.inr h'

theorem nodup_insertBeforeN {l : List Node} {x ref : Node} (hx : x ∉ l) (h : l.Nodup) :
    (insertBeforeN l x ref).Nodup := by
  induction l with
  | nil => simp [insertBeforeN]
  | cons c cs ih =>
    simp only [List.mem_cons, not_or] at hx
    rcases List.nodup_cons.mp h with ⟨hc, hcs⟩
    by_cases hcr : c = ref
    · simp only [insertBeforeN, if_pos hcr]
      refine List.nodup_cons.mpr ⟨?_, h⟩
      simp only [List.mem_cons, not_or]
      exact hx
    · simp only [insertBeforeN, if_neg hcr]
      refine List.nodup_cons.mpr ⟨?_, ih hx.2 hcs⟩
      intro hmem
      rcases mem_insertBeforeN hmem with h' | h'
      · exact hc h'
      · exact hx.1 h'.symm

theorem target_not_mem_ext (l : List Nat) : Node.target ∉ l.map Node.ext := by
  simp

theorem wrapper_not_mem_ext (l : List Nat) : Node.wrapper ∉ l.map Node.ext := by
  simp

theorem sentinel_not_mem_ext (k : Nat) (l : List Nat) :
    Node.sentinel k ∉ l.map Node.ext := by
  simp

/-- Doc state right after `attach`: the wrapper replaced the target in its
parent, and the wrapper holds exactly the target and the first sentinel. -/
theorem attach_doc (L1 L2 : List Nat) (H : Nat) (opts : Options) (c0 n0 : Nat) :
    (attachEngine L1 L2 H opts c0 n0).doc =
      { parentChildren := L1.map Node.ext ++ Node.wrapper :: L2.map Node.ext
        wrapperChildren := [Node.target, Node.sentinel n0] } := by
  have e1 : eraseN (L1.map Node.ext ++ Node.target :: L2.map Node.ext) Node.wrapper
      = L1.map Node.ext ++ Node.target :: L2.map Node.ext :=
    eraseN_of_not_mem (by simp)
  have e2 : insertBeforeN (L1.map Node.ext ++ Node.target :: L2.map Node.ext)
      Node.wrapper Node.target
      = L1.map Node.ext ++ Node.wrapper :: Node.target :: L2.map Node.ext := by
    rw [insertBeforeN_append_left (target_not_mem_ext L1)]
    simp [insertBeforeN]
  have e3 : eraseN (L1.map Node.ext ++ Node.wrapper :: Node.target :: L2.map Node.ext)
      Node.target = L1.map Node.ext ++ Node.wrapper :: L2.map Node.ext := by
    rw [eraseN_append_left (target_not_mem_ext L1)]
    simp [eraseN]
  have e4 : eraseN (L1.map Node.ext ++ Node.wrapper :: L2.map Node.ext) (Node.sentinel n0)
      = L1.map Node.ext ++ Node.wrapper :: L2.map Node.ext :=
    eraseN_of_not_mem (by simp)
  simp [attachEngine, insertBeforeInParent, appendChildWrapper, eraseNode,
    e1, e2, e3, e4, eraseN]

/-- C5: right after attach the wrapper has exactly two children — the target
and the current sentinel — and every sentinel replacement (`recreateSentinel`,
run on resize and on offset/debug updates) preserves this shape, swapping only
the sentinel child. -/
theorem wrapper_two_children :
    (∀ (L1 L2 : List Nat) (H : Nat) (opts : Options) (c0 n0 : Nat),
      (attachEngine L1 L2 H opts c0 n0).doc.wrapperChildren
        = [Node.target, Node.sentinel n0]) ∧
    (∀ (e : Engine) (j : Nat),
      e.doc.wrapperChildren = [Node.target, Node.sentinel j] →
      Node.sentinel j ∉ e.doc.parentChildren →
      e.sentNode = j →
      (recreateOp e).doc.wrapperChildren = [Node.target, Node.sentinel e.nodeCtr]) := by
  constructor
  · intro L1 L2 H opts c0 n0
    rw [attach_doc]
  · intro e j h1 h2 h3
    simp only [recreateOp, replaceWithinDoc, h3, if_neg h2]
    rw [if_pos (by rw [h1]; simp)]
    rw [h1]
    simp [replaceFirstN]

/-- C5 witness: the invariant evaluated on a concrete attachment and one
concrete sentinel replacement. -/
theorem wrapper_two_children_witness :
    (attachEngine [] [] 50 {} 0 0).doc.wrapperChildren
      = [Node.target, Node.sentinel 0] ∧
    (recreateOp (attachEngine [] [] 50 {} 0 0)).doc.wrapperChildren
      = [Node.target, Node.sentinel (attachEngine [] [] 50 {} 0 0).nodeCtr] :=
  ⟨wrapper_two_children.1 [] [] 50 {} 0 0,
   wrapper_two_children.2 (attachEngine [] [] 50 {} 0 0) 0
     (by decide) (by decide) (by decide)⟩

/-- C7: attach immediately followed by destroy restores the target to its
exact prior position between its siblings, with no residual wrapper anywhere
in the parent and an empty wrapper — a round-trip no-op for the document. -/
theorem wrap_unwrap_roundtrip (L1 L2 : List Nat) (H : Nat) (opts : Options) (c0 n0 : Nat) :
    (destroyOp (attachEngine L1 L2 H opts c0 n0)).doc.parentChildren
        = L1.map Node.ext ++ Node.target :: L2.map Node.ext ∧
    Node.wrapper ∉ (destroyOp (attachEngine L1 L2 H opts c0 n0)).doc.parentChildren ∧
    (destroyOp (attachEngine L1 L2 H opts c0 n0)).doc.wrapperChildren = [] := by
  have hparent : (destroyOp (attachEngine L1 L2 H opts c0 n0)).doc.parentChildren
      = L1.map Node.ext ++ Node.target :: L2.map Node.ext ∧
      (destroyOp (attachEngine L1 L2 H opts c0 n0)).doc.wrapperChildren = [] := by
    have hs : (attachEngine L1 L2 H opts c0 n0).sentNode = n0 := by
      simp [attachEngine]
    have e1 : eraseN (L1.map Node.ext ++ Node.wrapper :: L2.map Node.ext)
        (Node.sentinel n0) = L1.map Node.ext ++ Node.wrapper :: L2.map Node.ext :=
      eraseN_of_not_mem (by simp)
    have e2 : eraseN (L1.map Node.ext ++ Node.wrapper :: L2.map Node.ext) Node.target
        = L1.map Node.ext ++ Node.wrapper :: L2.map Node.ext :=
      eraseN_of_not_mem (by simp)
    have e3 : insertBeforeN (L1.map Node.ext ++ Node.wrapper :: L2.map Node.ext)
        Node.target Node.wrapper
        = L1.map Node.ext ++ Node.target :: Node.wrapper :: L2.map Node.ext := by
      rw [insertBeforeN_append_left (wrapper_not_mem_ext L1)]
      simp [insertBeforeN]
    have e4 : eraseN (L1.map Node.ext ++ Node.target :: Node.wrapper :: L2.map Node.ext)
        Node.wrapper = L1.map Node.ext ++ Node.target :: L2.map Node.ext := by
      rw [eraseN_append_left (wrapper_not_mem_ext L1)]
      simp [eraseN]
    have hw : Node.wrapper ∈ L1.map Node.ext ++ Node.wrapper :: L2.map Node.ext := by
      simp
    constructor <;>
      simp [destroyOp, destroyDoc, hs, attach_doc, eraseNode, insertBeforeInParent,
        e1, e2, e3, e4, hw, eraseN]
  exact ⟨hparent.1, by rw [hparent.1]; simp, hparent.2⟩

theorem destroyDoc_idem (s : Nat) (d : Doc) (h : WFDoc d) :
    destroyDoc s (destroyDoc s d) = destroyDoc s d := by
  obtain ⟨hp, hw, _⟩ := h
  have hp1 : (eraseN d.parentChildren (Node.sentinel s)).Nodup := nodup_eraseN _ hp
  have hw1 : (eraseN d.wrapperChildren (Node.sentinel s)).Nodup := nodup_eraseN _ hw
  have hsp1 : Node.sentinel s ∉ eraseN d.parentChildren (Node.sentinel s) :=
    not_mem_eraseN_self hp _
  have hsw1 : Node.sentinel s ∉ eraseN d.wrapperChildren (Node.sentinel s) :=
    not_mem_eraseN_self hw _
  by_cases hcase : Node.wrapper ∈ eraseN d.parentChildren (Node.sentinel s)
  · have h2 : destroyDoc s d =
        { parentChildren :=
            eraseN (insertBeforeN
              (eraseN (eraseN d.parentChildren (Node.sentinel s)) Node.target)
              Node.target Node.wrapper) Node.wrapper
          wrapperChildren :=
            eraseN (eraseN (eraseN d.wrapperChildren (Node.sentinel s)) Node.target)
              Node.wrapper } := by
      simp [destroyDoc, eraseNode, insertBeforeInParent, hcase]
    have hp2 : (insertBeforeN
        (eraseN (eraseN d.parentChildren (Node.sentinel s)) Node.target)
        Node.target Node.wrapper).Nodup :=
      nodup_insertBeforeN (not_mem_eraseN_self hp1 _) (nodup_eraseN _ hp1)
    have hwp3 : Node.wrapper ∉ eraseN (insertBeforeN
        (eraseN (eraseN d.parentChildren (Node.sentinel s)) Node.target)
        Node.target Node.wrapper) Node.wrapper :=
      not_mem_eraseN_self hp2 _
    have hsp3 : Node.sentinel s ∉ eraseN (insertBeforeN
        (eraseN (eraseN d.parentChildren (Node.sentinel s)) Node.target)
        Node.target Node.wrapper) Node.wrapper := by
      intro hmem
      rcases mem_insertBeforeN (mem_of_mem_eraseN hmem) with h' | h'
      · exact hsp1 (mem_of_mem_eraseN h')
      · simp at h'
    have hsw3 : Node.sentinel s ∉
        eraseN (eraseN (eraseN d.wrapperChildren (Node.sentinel s)) Node.target)
          Node.wrapper :=
      fun hm => hsw1 (mem_of_mem_eraseN (mem_of_mem_eraseN hm))
    have hww3 : Node.wrapper ∉
        eraseN (eraseN (eraseN d.wrapperChildren (Node.sentinel s)) Node.target)
          Node.wrapper :=
      not_mem_eraseN_self (nodup_eraseN _ hw1) _
    rw [h2]
    simp [destroyDoc, eraseNode, insertBeforeInParent,
      eraseN_of_not_mem hsp3, eraseN_of_not_mem hsw3, hwp3,
      eraseN_of_not_mem hwp3, eraseN_of_not_mem hww3]
  · have h2 : destroyDoc s d =
        { parentChildren := eraseN d.parentChildren (Node.sentinel s)
          wrapperChildren :=
            eraseN (eraseN d.wrapperChildren (Node.sentinel s)) Node.wrapper } := by
      simp [destroyDoc, eraseNode, insertBeforeInParent, hcase,
        eraseN_of_not_mem hcase]
    have hsw2 : Node.sentinel s ∉
        eraseN (eraseN d.wrapperChildren (Node.sentinel s)) Node.wrapper :=
      fun hm => hsw1 (mem_of_mem_eraseN hm)
    have hww2 : Node.wrapper ∉
        eraseN (eraseN d.wrapperChildren (Node.sentinel s)) Node.wrapper :=
      not_mem_eraseN_self hw1 _
    rw [h2]
    simp [destroyDoc, eraseNode, insertBeforeInParent,
      eraseN_of_not_mem hsp1, eraseN_of_not_mem hsw2, hcase,
      eraseN_of_not_mem hcase, eraseN_of_not_mem hww2]

theorem destroyOp_idem (e : Engine) (h : WFDoc e.doc) :
    destroyOp (destroyOp e) = destroyOp e := by
  simp [destroyOp, destroyDoc_idem e.sentNode e.doc h]

/-- C2: for every attachment state — including states where external code has
already removed the target or the wrapper from the document, captured by
quantifying over every well-formed document snapshot — calling `destroy()`
`N ≥ 1` times yields exactly the state of calling it once; calls 2..N change
nothing (and `destroy` is a total function, so no call throws). -/
theorem destroy_idempotent (e : Engine) (h : WFDoc e.doc) (N : Nat) (hN : 1 ≤ N) :
    destroyOp^[N] e = destroyOp e := by
  induction N with
  | zero => omega
  | succ n ih =>
    rcases Nat.lt_or_ge n 1 with h1 | h1
    · have : n = 0 := by omega
      subst this
      simp
    · rw [Function.iterate_succ_apply', ih h1, destroyOp_idem e h]

/-- C2 witness: three destroys on a concrete attachment equal one destroy. -/
theorem destroy_idempotent_witness :
    destroyOp^[3] (attachEngine [] [] 100 {} 0 0)
      = destroyOp (attachEngine [] [] 100 {} 0 0) :=
  destroy_idempotent (attachEngine [] [] 100 {} 0 0) (by decide) 3 (by decide)

theorem foldSteps_nil (e : Engine) : foldSteps e [] = e := rfl

theorem foldSteps_cons (e : Engine) (ev : Ev) (evs : List Ev) :
    foldSteps e (ev :: evs) = foldSteps (stepEv e ev) evs := rfl

theorem foldSteps_append (e : Engine) (l1 l2 : List Ev) :
    foldSteps e (l1 ++ l2) = foldSteps (foldSteps e l1) l2 :=
  List.foldl_append stepEv e l1 l2

theorem stepEv_options (e : Engine) (ev : Ev) : (stepEv e ev).options = e.options := by
  cases ev with
  | inter b => cases b <;> simp only [stepEv, interCallback] <;> split_ifs <;> rfl
  | resize =>
    simp only [stepEv, recreateOp]
    split_ifs <;> rfl

theorem stepEv_visible_once (e : Engine) (ev : Ev)
    (hrep : e.options.repeatFlag.getD false = false) (hv : e.visible = true) :
    (stepEv e ev).visible = true := by
  cases ev with
  | inter b => cases b <;> simp only [stepEv, interCallback] <;> split_ifs <;> simp_all
  | resize =>
    simp only [stepEv, recreateOp]
    split_ifs <;> simp_all

theorem stepEv_inter_frozen (e : Engine) (b : Bool) (ho : e.observing = false) :
    stepEv e (Ev.inter b) = e := by
  simp [stepEv, interCallback, ho]

theorem foldSteps_visible_once (e : Engine)
    (hrep : e.options.repeatFlag.getD false = false) (hv : e.visible = true)
    (evs : List Ev) : (foldSteps e evs).visible = true := by
  induction evs generalizing e with
  | nil => exact hv
  | cons ev evs ih =>
    rw [foldSteps_cons]
    exact ih (stepEv e ev) (by rw [stepEv_options]; exact hrep)
      (stepEv_visible_once e ev hrep hv)

theorem foldSteps_frozen (e : Engine) (ho : e.observing = false) (evs : List Ev)
    (hnr : Ev.resize ∉ evs) : foldSteps e evs = e := by
  induction evs with
  | nil => rfl
  | cons ev evs ih =>
    simp only [List.mem_cons, not_or] at hnr
    cases ev with
    | inter b =>
      rw [foldSteps_cons, stepEv_inter_frozen e b ho]
      exact ih hnr.2
    | resize => exact absurd rfl (Ne.symm hnr.1)

theorem trigger_once (e : Engine) (ho : e.observing = true) (hc : e.isConnected = true)
    (hrep : e.options.repeatFlag.getD false = false) :
    stepEv e (Ev.inter true) =
      { e with visible := true
               onVisibleCount :=
                 e.onVisibleCount + (if e.options.hasOnVisible then 1 else 0)
               observing := false
               isConnected := false } := by
  simp [stepEv, interCallback, ho, hrep, hc]

/-- C1 amended: in once mode, after the first transition into Triggered the
`is-visible` marker is never removed by any subsequent sequence of
intersection and resize events; and over every subsequent sequence containing
no resize-driven sentinel regeneration, the `onVisible` callback is never
invoked again.  (A resize regeneration re-observes the new sentinel without
restoring `state.isConnected`, after which further intersecting events do
re-invoke the callback — see the counterexample.) -/
theorem once_mode_after_trigger (L1 L2 : List Nat) (H : Nat) (opts : Options)
    (c0 n0 : Nat) (h_once : opts.repeatFlag.getD false = false) :
    (∀ evs : List Ev,
      (foldSteps (stepEv (attachEngine L1 L2 H opts c0 n0) (Ev.inter true)) evs).visible
        = true) ∧
    (∀ evs : List Ev, Ev.resize ∉ evs →
      (foldSteps (stepEv (attachEngine L1 L2 H opts c0 n0) (Ev.inter true)) evs).onVisibleCount
        = (stepEv (attachEngine L1 L2 H opts c0 n0) (Ev.inter true)).onVisibleCount) := by
  have htr := trigger_once (attachEngine L1 L2 H opts c0 n0) rfl rfl h_once
  constructor
  · intro evs
    refine foldSteps_visible_once _ ?_ ?_ evs
    · rw [stepEv_options]
      exact h_once
    · rw [htr]
  · intro evs hnr
    rw [foldSteps_frozen _ (by rw [htr]) evs hnr]

/-- C1 witness: the amended guarantees evaluated on a concrete once-mode
attachment with a callback, over a concrete resize-free event sequence. -/
theorem once_mode_after_trigger_witness :
    (foldSteps (stepEv (attachEngine [] [] 100 optsOnceCb 0 0) (Ev.inter true))
      [Ev.inter true, Ev.inter false]).visible = true ∧
    (foldSteps (stepEv (attachEngine [] [] 100 optsOnceCb 0 0) (Ev.inter true))
      [Ev.inter true, Ev.inter false]).onVisibleCount
      = (stepEv (attachEngine [] [] 100 optsOnceCb 0 0) (Ev.inter true)).onVisibleCount :=
  ⟨(once_mode_after_trigger [] [] 100 optsOnceCb 0 0 rfl).1 [Ev.inter true, Ev.inter false],
   (once_mode_after_trigger [] [] 100 optsOnceCb 0 0 rfl).2 [Ev.inter true, Ev.inter false]
     (by decide)⟩

/-- C1 counterexample: once mode, callback present.  After the first Triggered
transition the observation is disconnected, but a resize regenerates the
sentinel and `recreateSentinel` re-observes it without restoring
`state.isConnected`; the next intersecting event therefore invokes the
`onVisible` callback a second time, contradicting the claim that it is never
invoked again after the first transition. -/
theorem once_mode_counterexample :
    ¬ ((foldSteps (stepEv (attachEngine [] [] 100 optsOnceCb 0 0) (Ev.inter true))
         [Ev.resize, Ev.inter true]).onVisibleCount
       = (stepEv (attachEngine [] [] 100 optsOnceCb 0 0) (Ev.inter true)).onVisibleCount) := by
  decide

theorem stepEv_repeat_true (e : Engine) (hrep : e.options.repeatFlag = some true)
    (ho : e.observing = true) :
    stepEv e (Ev.inter true) =
      { e with visible := true
               onVisibleCount :=
                 e.onVisibleCount + (if e.options.hasOnVisible then 1 else 0) } := by
  simp [stepEv, interCallback, ho, hrep]

theorem stepEv_repeat_false (e : Engine) (hrep : e.options.repeatFlag = some true)
    (ho : e.observing = true) :
    stepEv e (Ev.inter false) = { e with visible := false } := by
  simp [stepEv, interCallback, ho, hrep]

theorem foldSteps_options (e : Engine) (evs : List Ev) :
    (foldSteps e evs).options = e.options := by
  induction evs generalizing e with
  | nil => rfl
  | cons ev evs ih => rw [foldSteps_cons, ih, stepEv_options]

theorem altRun (n : Nat) : ∀ e : Engine, e.options.repeatFlag = some true →
    e.observing = true → e.isConnected = true →
    foldSteps e (altEvs n) =
      { e with visible := if n = 0 then e.visible else false,
               onVisibleCount := e.onVisibleCount
                 + n * (if e.options.hasOnVisible then 1 else 0) } := by
  induction n with
  | zero =>
    intro e _ _ _
    simp [altEvs, foldSteps]
  | succ m ih =>
    intro e hrep ho hc
    have h1 := stepEv_repeat_true e hrep ho
    have h2 := stepEv_repeat_false
      { e with
          visible := true,
          onVisibleCount :=
            e.onVisibleCount + (if e.options.hasOnVisible then 1 else 0) }
      (by exact hrep) (by exact ho)
    have h3 := ih
      { e with
          visible := false,
          onVisibleCount :=
            e.onVisibleCount + (if e.options.hasOnVisible then 1 else 0) }
      (by exact hrep) (by exact ho) (by exact hc)
    rw [show altEvs (m + 1) = Ev.inter true :: Ev.inter false :: altEvs m from rfl,
      foldSteps_cons, foldSteps_cons, h1, h2, h3]
    simp
    split_ifs <;> omega

theorem attach_options_eq (L1 L2 : List Nat) (H : Nat) (opts : Options) (c0 n0 : Nat) :
    (attachEngine L1 L2 H opts c0 n0).options = opts := rfl

theorem attach_visible_eq (L1 L2 : List Nat) (H : Nat) (opts : Options) (c0 n0 : Nat) :
    (attachEngine L1 L2 H opts c0 n0).visible = false := rfl

theorem attach_count_eq (L1 L2 : List Nat) (H : Nat) (opts : Options) (c0 n0 : Nat) :
    (attachEngine L1 L2 H opts c0 n0).onVisibleCount = 0 := rfl

/-- C6: in repeat mode, every alternating intersecting / non-intersecting
sequence toggles the `is-visible` marker in lockstep — on after each
intersecting event (with the callback invoked once per such event), off after
each non-intersecting event — indefinitely, and after any number of cycles the
observation is still live (the engine never disconnects it). -/
theorem repeat_mode_oscillation (L1 L2 : List Nat) (H : Nat) (opts : Options)
    (c0 n0 : Nat) (hrep : opts.repeatFlag = some true) (n : Nat) :
    (foldSteps (attachEngine L1 L2 H opts c0 n0) (altEvs n)).visible = false ∧
    (foldSteps (attachEngine L1 L2 H opts c0 n0) (altEvs n)).onVisibleCount
      = n * (if opts.hasOnVisible then 1 else 0) ∧
    (foldSteps (attachEngine L1 L2 H opts c0 n0) (altEvs n)).observing = true ∧
    (foldSteps (attachEngine L1 L2 H opts c0 n0) (altEvs n)).isConnected = true ∧
    (foldSteps (attachEngine L1 L2 H opts c0 n0)
      (altEvs n ++ [Ev.inter true])).visible = true ∧
    (foldSteps (attachEngine L1 L2 H opts c0 n0)
      (altEvs n ++ [Ev.inter true])).onVisibleCount
      = n * (if opts.hasOnVisible then 1 else 0)
        + (if opts.hasOnVisible then 1 else 0) := by
  have h0 := altRun n (attachEngine L1 L2 H opts c0 n0) hrep rfl rfl
  have hvis : (foldSteps (attachEngine L1 L2 H opts c0 n0) (altEvs n)).visible = false := by
    rw [h0]
    simp [attach_visible_eq]
  have hcnt : (foldSteps (attachEngine L1 L2 H opts c0 n0) (altEvs n)).onVisibleCount
      = n * (if opts.hasOnVisible then 1 else 0) := by
    rw [h0]
    simp [attach_count_eq, attach_options_eq]
  have hobs : (foldSteps (attachEngine L1 L2 H opts c0 n0) (altEvs n)).observing = true := by
    rw [h0]; exact rfl
  have hconn : (foldSteps (attachEngine L1 L2 H opts c0 n0) (altEvs n)).isConnected
      = true := by
    rw [h0]; exact rfl
  have hopts : (foldSteps (attachEngine L1 L2 H opts c0 n0) (altEvs n)).options = opts := by
    rw [foldSteps_options, attach_options_eq]
  have h5 := stepEv_repeat_true (foldSteps (attachEngine L1 L2 H opts c0 n0) (altEvs n))
    (by rw [hopts]; exact hrep) hobs
  refine ⟨hvis, hcnt, hobs, hconn, ?_, ?_⟩
  · rw [foldSteps_append, foldSteps_cons, foldSteps_nil, h5]
  · rw [foldSteps_append, foldSteps_cons, foldSteps_nil, h5]
    simp [hcnt, hopts]

/-- C6 witness: two full cycles plus one more intersecting event on a concrete
repeat-mode attachment with a callback. -/
theorem repeat_mode_oscillation_witness :
    (foldSteps (attachEngine [] [] 100 optsRepeatCb 0 0) (altEvs 2)).visible = false ∧
    (foldSteps (attachEngine [] [] 100 optsRepeatCb 0 0) (altEvs 2)).onVisibleCount
      = 2 * (if optsRepeatCb.hasOnVisible then 1 else 0) ∧
    (foldSteps (attachEngine [] [] 100 optsRepeatCb 0 0) (altEvs 2)).observing = true ∧
    (foldSteps (attachEngine [] [] 100 optsRepeatCb 0 0) (altEvs 2)).isConnected = true ∧
    (foldSteps (attachEngine [] [] 100 optsRepeatCb 0 0)
      (altEvs 2 ++ [Ev.inter true])).visible = true ∧
    (foldSteps (attachEngine [] [] 100 optsRepeatCb 0 0)
      (altEvs 2 ++ [Ev.inter true])).onVisibleCount
      = 2 * (if optsRepeatCb.hasOnVisible then 1 else 0)
        + (if optsRepeatCb.hasOnVisible then 1 else 0) :=
  repeat_mode_oscillation [] [] 100 optsRepeatCb 0 0 rfl 2

/-- C9: a run of `N` sentinel creations with no caller-supplied identifier
yields exactly the identifiers `sentinel-(c+1), …, sentinel-(c+N)` from the
monotonically increasing process-wide counter, these are pairwise distinct,
and each identifier is attached to the returned node's `data-sentinel-id`
attribute (regardless of debug mode, which is arbitrary in `ps`). -/
theorem sentinel_ids_unique (c : Nat) (ps : List CSParams) :
    (runCreates c ps).map (fun r => r.id)
        = (List.range ps.length).map (fun i => "sentinel-" ++ Nat.repr (c + i + 1)) ∧
    ((runCreates c ps).map (fun r => r.id)).Nodup ∧
    (runCreates c ps).map (fun r => r.node.dataSentinelId)
        = (runCreates c ps).map (fun r => r.id) :=
  ⟨runCreates_ids c ps, sentinel_ids_nodup c ps, runCreates_attrs c ps⟩

theorem validateAnimation_invalid (a : String) (hne : a ≠ "")
    (hmem : a ∉ ANIMATION_TYPES) :
    validateAnimation (some a) = ("fade-in", true) := by
  simp [validateAnimation, hne, hmem]

/-- C8 amended: for every attach call whose requested animation identifier is
a NON-EMPTY string outside `ANIMATION_TYPES`, the engine writes the fallback
`fade-in` to the target's `data-animation` attribute, emits the warning, and
completes the attachment (wrapper built with target and sentinel).  The
empty-string identifier is the exception — see the counterexample. -/
theorem invalid_animation_fallback (L1 L2 : List Nat) (H : Nat) (opts : Options)
    (c0 n0 : Nat) (a : String) (ha : opts.animation = some a) (hne : a ≠ "")
    (hmem : a ∉ ANIMATION_TYPES) :
    (attachEngine L1 L2 H opts c0 n0).dataAnimation = some "fade-in" ∧
    (attachEngine L1 L2 H opts c0 n0).warnedInvalid = true ∧
    (attachEngine L1 L2 H opts c0 n0).doc.wrapperChildren
      = [Node.target, Node.sentinel n0] := by
  have hva : validateAnimation opts.animation = ("fade-in", true) := by
    rw [ha]
    exact validateAnimation_invalid a hne hmem
  refine ⟨?_, ?_, ?_⟩
  · show (if (validateAnimation opts.animation).1 ≠ ""
        then some (validateAnimation opts.animation).1 else none) = some "fade-in"
    rw [hva]
    simp
  · show (validateAnimation opts.animation).2 = true
    rw [hva]
  · rw [attach_doc]

/-- C8 witness: a concrete unrecognized non-empty identifier. -/
theorem invalid_animation_fallback_witness :
    (attachEngine [] [] 100 { animation := some "spin" } 0 0).dataAnimation
      = some "fade-in" ∧
    (attachEngine [] [] 100 { animation := some "spin" } 0 0).warnedInvalid = true ∧
    (attachEngine [] [] 100 { animation := some "spin" } 0 0).doc.wrapperChildren
      = [Node.target, Node.sentinel 0] :=
  invalid_animation_fallback [] [] 100 { animation := some "spin" } 0 0 "spin" rfl
    (by decide) (by decide)

/-- C8 counterexample: the empty string is an identifier outside
`ANIMATION_TYPES`, yet attaching with it writes no `data-animation` attribute
at all and emits no warning — JS truthiness (`if (animation && ...)`,
`if (animation)`) skips both the validation and the attribute write — so the
fallback is not substituted, refuting the claim as stated. -/
theorem invalid_animation_empty_counterexample :
    ("" ∉ ANIMATION_TYPES) ∧
    ¬ ((attachEngine [] [] 100 optsEmptyAnim 0 0).dataAnimation = some "fade-in") ∧
    (attachEngine [] [] 100 optsEmptyAnim 0 0).dataAnimation = none ∧
    (attachEngine [] [] 100 optsEmptyAnim 0 0).warnedInvalid = false := by
  decide

/-- C10 amended: for every update call supplying a NON-EMPTY animation string
— including strings outside `ANIMATION_TYPES` — the string is written verbatim
to `data-animation`, with no fallback substitution, no warning, and no other
document effect; an empty-string animation is ignored entirely (the attribute
keeps its previous value).  Validation and fallback happen only in attach. -/
theorem update_animation_verbatim (e : Engine) (s : String) (hs : s ≠ "") :
    (updateOp e (animOnly s)).dataAnimation = some s ∧
    (updateOp e (animOnly s)).warnedInvalid = e.warnedInvalid ∧
    (updateOp e (animOnly s)).doc = e.doc := by
  simp [updateOp, animOnly, hs]

/-- C10 witness: updating with a concrete string not in `ANIMATION_TYPES`. -/
theorem update_animation_verbatim_witness :
    (updateOp (attachEngine [] [] 100 {} 0 0)
        (animOnly "not-a-real-animation")).dataAnimation
      = some "not-a-real-animation" ∧
    (updateOp (attachEngine [] [] 100 {} 0 0)
        (animOnly "not-a-real-animation")).warnedInvalid
      = (attachEngine [] [] 100 {} 0 0).warnedInvalid ∧
    (updateOp (attachEngine [] [] 100 {} 0 0) (animOnly "not-a-real-animation")).doc
      = (attachEngine [] [] 100 {} 0 0).doc :=
  update_animation_verbatim (attachEngine [] [] 100 {} 0 0) "not-a-real-animation"
    (by decide)

/-- C10 counterexample: supplying the empty animation string to `update` does
NOT write it verbatim — the truthiness guard drops it and `data-animation`
keeps its previous value (`fade-in` from the attach default), refuting the
claim's universal quantification over all animation strings. -/
theorem update_animation_empty_counterexample :
    ¬ ((updateOp (attachEngine [] [] 100 {} 0 0) (animOnly "")).dataAnimation
        = some "") ∧
    (updateOp (attachEngine [] [] 100 {} 0 0) (animOnly "")).dataAnimation
      = some "fade-in" := by
  decide

end RuneScroller
